import Mathlib

/-
Shallow embedding of the MSME marketplace web application (src/app.py):
a Flask app with two tables (users, products), session-based login,
a role-check decorator, supplier catalog CRUD and a search endpoint.

Conventions of the embedding:
 - the persistent store is a pair of lists (users, products);
 - the session is the optional id of the logged-in account, and
   `current_user` replays the user_loader of flask-login (User.query.get);
 - each route handler is a function from the web state and the request
   data to an `HResult`: the next state, the HTTP outcome and the list
   of flashed (message, category) pairs of the request;
 - Python string truthiness (`if not username`, `if keyword:`) is the
   emptiness test on the string, with an absent form field read as the
   empty string exactly where the Python code would treat both alike;
 - `float(...)` / `int(...)` of the standard library are modelled on
   their decimal forms by `pyFloat?` / `pyInt?` (optional sign, digits,
   one optional dot for float); whitespace, exponent, inf/nan forms are
   elided, which no theorem below depends on;
 - the werkzeug hashing primitive is out of scope per the spec and is
   modelled by an injective tagging function.
-/

namespace MSME

/-- Numeric value of a list of decimal digit characters. -/
def digitsVal (l : List Char) : Nat :=
  l.foldl (fun a c => a * 10 + (c.toNat - 48)) 0

/-- A non-empty all-digit character list, parsed to its value. -/
def decDigits? (l : List Char) : Option Nat :=
  if l ≠ [] ∧ l.all Char.isDigit then some (digitsVal l) else none

/-- Strip one optional leading sign, reporting whether it was a minus. -/
def stripSign : List Char → Bool × List Char
  | '-' :: t => (true, t)
  | '+' :: t => (false, t)
  | l => (false, l)

/-- Split at the first dot, keeping what follows it (if anything). -/
def breakDot : List Char → List Char × Option (List Char)
  | [] => ([], none)
  | c :: t =>
      if c = '.' then ([], some t)
      else
        let r := breakDot t
        (c :: r.1, r.2)

/-- Model of Python `float(s)` on plain decimal literals: optional sign,
digits with at most one dot, at least one digit. -/
def pyFloat? (s : String) : Option Rat :=
  let sg := stripSign s.data
  let neg := sg.1
  match breakDot sg.2 with
  | (ip, none) =>
      (decDigits? ip).map (fun n => if neg then -(n : Rat) else (n : Rat))
  | (ip, some fp) =>
      if (ip ++ fp) ≠ [] ∧ ip.all Char.isDigit ∧ fp.all Char.isDigit then
        let v : Rat := (digitsVal ip : Rat) + (digitsVal fp : Rat) / (10 ^ fp.length : Rat)
        some (if neg then -v else v)
      else none

/-- Model of Python `int(s)` on plain decimal literals: optional sign,
then one or more digits. -/
def pyInt? (s : String) : Option Int :=
  let sg := stripSign s.data
  (decDigits? sg.2).map (fun n => if sg.1 then -(n : Int) else (n : Int))

/-- Test whether `needle` is an initial segment of `hay`. -/
def leadsWith : List Char → List Char → Bool
  | [], _ => true
  | _ :: _, [] => false
  | a :: as, b :: bs => a == b && leadsWith as bs

/-- Test whether `needle` occurs contiguously inside `hay`
(the semantics of the `contains` keyword filter of the search route). -/
def hasSub (needle : List Char) : List Char → Bool
  | [] => leadsWith needle []
  | c :: t => leadsWith needle (c :: t) || hasSub needle t

/-- Python truthiness of an optional form field: present and non-empty. -/
def truthy (o : Option String) : Bool :=
  match o with
  | none => false
  | some s => !s.isEmpty

/-- Row of the `user` table (class User, src/app.py lines 18-29). -/
structure User where
  id : Nat
  username : String
  password_hash : String
  role : String
deriving DecidableEq

/-- Row of the `product` table (class Product, src/app.py lines 31-39). -/
structure Product where
  id : Nat
  name : String
  description : String
  price : Rat
  category : String
  min_order_qty : Int
  image_filename : Option String
  supplier_id : Nat
deriving DecidableEq

/-- The two persistent tables. -/
structure DB where
  users : List User
  products : List Product
deriving DecidableEq

/-- Web state: the store plus the session (id of the logged-in user). -/
structure WebState where
  db : DB
  session : Option Nat
deriving DecidableEq

inductive Method where
  | get
  | post
deriving DecidableEq

/-- HTTP outcome of one handled request. -/
inductive Outcome where
  | redirect (target : String)
  | render (template : String)
  | notFound
  | raised (exn : String)
deriving DecidableEq

/-- Result of one request: next state, outcome, flashed messages. -/
structure HResult where
  st : WebState
  outcome : Outcome
  flashes : List (String × String)
deriving DecidableEq

/-- Model of the werkzeug password hashing primitive (declared out of
scope by the spec): an injective tag so that verification succeeds
exactly on the hashed password. -/
def generate_password_hash (password : String) : String :=
  "pbkdf2$" ++ password

def check_password_hash (h password : String) : Bool :=
  h == "pbkdf2$" ++ password

/-- the user_loader of flask-login (src/app.py lines 41-43): resolve the
session to the matching account. -/
def current_user (st : WebState) : Option User :=
  match st.session with
  | none => none
  | some uid => st.db.users.find? (fun u => u.id == uid)

/-- What the role decorator emits on denial. -/
structure Denial where
  message : String
  category : String
  target : String
deriving DecidableEq

/-- The role_required decorator (src/app.py lines 46-55): deny unless an
identity is present and its role string equals the required one. -/
def role_required (role : String) (u : Option User) : Option Denial :=
  match u with
  | none => some ⟨"Access denied.", "danger", "login"⟩
  | some x =>
      if x.role ≠ role then some ⟨"Access denied.", "danger", "login"⟩ else none

/-- Composition of @login_required and @role_required on a route: the
flask-login redirect for anonymous users, the denial of the decorator for a
wrong role, the wrapped handler otherwise. -/
def guardRole (st : WebState) (role : String) (k : User → HResult) : HResult :=
  match current_user st with
  | none => ⟨st, .redirect "login", [("Please log in to access this page.", "message")]⟩
  | some u =>
      match role_required role (some u) with
      | some d => ⟨st, .redirect d.target, [(d.message, d.category)]⟩
      | none => k u

/-- Keyword predicate of the search route (src/app.py lines 277-281):
substring match against name OR description. -/
def kwMatch (keyword : String) (p : Product) : Bool :=
  hasSub keyword.data p.name.data || hasSub keyword.data p.description.data

/-- First filter step of the search route (src/app.py lines 277-281):
apply the keyword filter when the keyword string is truthy. -/
def keywordFiltered (db : DB) (keyword : String) : List Product :=
  if keyword ≠ "" then db.products.filter (kwMatch keyword) else db.products

/-- Both filter steps of the search route (src/app.py lines 275-284), in
source order: keyword filter, then category equality when the category
string is truthy. -/
def filterProducts (db : DB) (keyword category : String) : List Product :=
  if category ≠ "" then (keywordFiltered db keyword).filter (fun p => p.category == category)
  else keywordFiltered db keyword

def priceLe (p q : Product) : Prop := p.price ≤ q.price

def priceGe (p q : Product) : Prop := q.price ≤ p.price

instance : DecidableRel priceLe := fun p q => inferInstanceAs (Decidable (p.price ≤ q.price))

instance : DecidableRel priceGe := fun p q => inferInstanceAs (Decidable (q.price ≤ p.price))

instance : IsTotal Product priceLe := ⟨fun p q => le_total p.price q.price⟩

instance : IsTrans Product priceLe := ⟨fun _ _ _ h h' => le_trans h h'⟩

instance : IsTotal Product priceGe := ⟨fun p q => le_total q.price p.price⟩

instance : IsTrans Product priceGe := ⟨fun _ _ _ h h' => le_trans h' h⟩

/-- The search route's query composition (src/app.py lines 268-291):
filters, then the optional price ordering, materialised as a list.
`order_by` is modelled as a sorted permutation of the filtered rows. -/
def search (db : DB) (keyword category sort_by : String) : List Product :=
  if sort_by = "price_low" then List.insertionSort priceLe (filterProducts db keyword category)
  else if sort_by = "price_high" then List.insertionSort priceGe (filterProducts db keyword category)
  else filterProducts db keyword category

/-- Form posted to /register. -/
structure RegForm where
  username : Option String
  password : Option String
  role : Option String
deriving DecidableEq

/-- Form posted to /login. -/
structure LoginForm where
  username : Option String
  password : Option String
deriving DecidableEq

/-- Form posted to the add/edit product routes. -/
structure ProductForm where
  name : Option String
  description : Option String
  price : Option String
  category : Option String
  min_order_qty : Option String
  image_filename : Option String
deriving DecidableEq

/-- POST branch of /register (src/app.py lines 86-109), with the three
form fields already read out (an absent field and an empty one are alike
under every test the branch makes). -/
def registerPost (st : WebState) (username password role : String) (nextId : Nat) : HResult :=
  if username.isEmpty ∨ password.isEmpty ∨ role.isEmpty then
    ⟨st, .redirect "register", [("All fields are required.", "danger")]⟩
  else if ¬(role = "supplier" ∨ role = "buyer") then
    ⟨st, .redirect "register", [("Invalid role selected.", "danger")]⟩
  else if (st.db.users.find? (fun u => u.username == username)).isSome then
    ⟨st, .redirect "register", [("Username already exists.", "danger")]⟩
  else
    ⟨⟨⟨st.db.users ++ [⟨nextId, username, generate_password_hash password, role⟩],
       st.db.products⟩, st.session⟩,
     .redirect "login", [("Registration successful! Please login.", "success")]⟩

/-- The /register handler (src/app.py lines 81-111). `nextId` stands for
the autoincrement id the store would assign to a created row. -/
def register (st : WebState) (method : Method) (form : RegForm) (nextId : Nat) : HResult :=
  if (current_user st).isSome then ⟨st, .redirect "index", []⟩
  else match method with
  | .get => ⟨st, .render "register.html", []⟩
  | .post =>
      registerPost st (form.username.getD "") (form.password.getD "") (form.role.getD "") nextId

/-- The /login handler (src/app.py lines 113-131). -/
def login (st : WebState) (method : Method) (form : LoginForm) : HResult :=
  if (current_user st).isSome then ⟨st, .redirect "index", []⟩
  else match method with
  | .get => ⟨st, .render "login.html", []⟩
  | .post =>
      match st.db.users.find? (fun u => some u.username == form.username) with
      | some user =>
          if check_password_hash user.password_hash (form.password.getD "") then
            ⟨⟨st.db, some user.id⟩, .redirect "index", [("Login successful!", "success")]⟩
          else ⟨st, .render "login.html", [("Invalid username or password.", "danger")]⟩
      | none => ⟨st, .render "login.html", [("Invalid username or password.", "danger")]⟩

/-- Body of the add_product route (src/app.py lines 181-212), run for an
authenticated supplier `u`. The try/except around the float/int parses
turns a parse failure into the flash-and-redirect branch. -/
def add_product_body (st : WebState) (u : User) (method : Method) (form : ProductForm)
    (nextId : Nat) : HResult :=
  match method with
  | .get => ⟨st, .render "product_form.html", []⟩
  | .post =>
      if ¬(truthy form.name ∧ truthy form.description ∧ truthy form.price
            ∧ truthy form.category ∧ truthy form.min_order_qty) then
        ⟨st, .redirect "add_product", [("All fields except image are required.", "danger")]⟩
      else
        match pyFloat? (form.price.getD ""), pyInt? (form.min_order_qty.getD "") with
        | some pr, some q =>
            let p : Product := ⟨nextId, form.name.getD "", form.description.getD "", pr,
                                form.category.getD "", q, form.image_filename, u.id⟩
            ⟨⟨⟨st.db.users, st.db.products ++ [p]⟩, st.session⟩,
             .redirect "supplier_dashboard", [("Product added successfully!", "success")]⟩
        | _, _ =>
            ⟨st, .redirect "add_product", [("Invalid price or quantity value.", "danger")]⟩

/-- The add_product route with its decorators (src/app.py lines 178-212). -/
def add_product (st : WebState) (method : Method) (form : ProductForm) (nextId : Nat) : HResult :=
  guardRole st "supplier" (fun u => add_product_body st u method form nextId)

/-- Body of the edit_product route (src/app.py lines 217-236): Product
lookup with get_or_404, ownership check, then on POST an unconditional
overwrite of every field. The float/int parses are NOT wrapped in any
try/except there: a parse failure propagates as an uncaught exception. -/
def edit_product_body (st : WebState) (u : User) (pid : Nat) (method : Method)
    (form : ProductForm) : HResult :=
  match st.db.products.find? (fun p => p.id == pid) with
  | none => ⟨st, .notFound, []⟩
  | some product =>
      if product.supplier_id ≠ u.id then
        ⟨st, .redirect "supplier_dashboard", [("Access denied.", "danger")]⟩
      else match method with
      | .get => ⟨st, .render "product_form.html", []⟩
      | .post =>
          match pyFloat? (form.price.getD ""), pyInt? (form.min_order_qty.getD "") with
          | some pr, some q =>
              let p : Product := ⟨product.id, form.name.getD "", form.description.getD "", pr,
                                  form.category.getD "", q, form.image_filename,
                                  product.supplier_id⟩
              ⟨⟨⟨st.db.users, st.db.products.map (fun x => if x.id == pid then p else x)⟩,
                 st.session⟩,
               .redirect "supplier_dashboard", [("Product updated successfully!", "success")]⟩
          | _, _ => ⟨st, .raised "ValueError", []⟩

/-- The edit_product route with its decorators (src/app.py lines 214-236). -/
def edit_product (st : WebState) (pid : Nat) (method : Method) (form : ProductForm) : HResult :=
  guardRole st "supplier" (fun u => edit_product_body st u pid method form)

/-- Body of the supplier delete_product route (src/app.py lines 241-251). -/
def delete_product_body (st : WebState) (u : User) (pid : Nat) : HResult :=
  match st.db.products.find? (fun p => p.id == pid) with
  | none => ⟨st, .notFound, []⟩
  | some product =>
      if product.supplier_id ≠ u.id then
        ⟨st, .redirect "supplier_dashboard", [("Access denied.", "danger")]⟩
      else
        ⟨⟨⟨st.db.users, st.db.products.filter (fun x => ¬x.id = product.id)⟩, st.session⟩,
         .redirect "supplier_dashboard", [("Product deleted successfully.", "success")]⟩

/-- The supplier delete_product route with its decorators
(src/app.py lines 238-251). -/
def delete_product (st : WebState) (pid : Nat) : HResult :=
  guardRole st "supplier" (fun u => delete_product_body st u pid)

/-- The admin delete route (src/app.py lines 160-168): no ownership
check, any product deletable by an admin. -/
def admin_delete_product (st : WebState) (pid : Nat) : HResult :=
  guardRole st "admin" (fun _ =>
    match st.db.products.find? (fun p => p.id == pid) with
    | none => ⟨st, .notFound, []⟩
    | some product =>
        ⟨⟨⟨st.db.users, st.db.products.filter (fun x => ¬x.id = product.id)⟩, st.session⟩,
         .redirect "admin_dashboard", [("Product deleted successfully.", "success")]⟩)

/-- Modelled from the spec: no route of src/app.py deletes an account;
the cascade semantics come from the relationship declaration
cascade all, delete-orphan on User.products (src/app.py line 23) and
from the data model of the spec: deleting an account removes every product it
owns, and nothing else. -/
def delete_account (db : DB) (uid : Nat) : DB :=
  ⟨db.users.filter (fun u => u.id != uid),
   db.products.filter (fun p => p.supplier_id != uid)⟩

/- ------------------------------------------------------------------ -/
/- Theorems                                                            -/
/- ------------------------------------------------------------------ -/

theorem mem_filterProducts (db : DB) (kw cat : String) (p : Product) :
    p ∈ filterProducts db kw cat ↔
      p ∈ db.products ∧ (kw = "" ∨ kwMatch kw p = true) ∧ (cat = "" ∨ p.category = cat) := by
  unfold filterProducts keywordFiltered
  by_cases hk : kw = "" <;> by_cases hc : cat = "" <;>
    simp [hk, hc, List.mem_filter, and_assoc, and_comm]

/-- C1: a product is in the search listing exactly when it is in the
catalog, matches the keyword as a substring of its name or description
when a keyword is given, and has exactly the given category when one is
given; an empty keyword or category imposes no corresponding condition.
The sort parameter never changes membership. -/
theorem C1_search_membership (db : DB) (keyword category sort_by : String) (p : Product) :
    p ∈ search db keyword category sort_by ↔
      p ∈ db.products ∧ (keyword = "" ∨ kwMatch keyword p = true)
        ∧ (category = "" ∨ p.category = category) := by
  unfold search
  split_ifs <;> simp [mem_filterProducts]

/-- C5: the role guard allows exactly an identity that is present and
whose role string equals the required one; every denial carries the
"Access denied." flash and the redirect to login; in particular any
account whose role is not the string "supplier" (an admin included) is
denied by a supplier-required guard. -/
theorem C5_role_required_exact (role : String) (u : Option User) :
    (role_required role u = none ↔ ∃ x, u = some x ∧ x.role = role) ∧
    (role_required role u = none ∨
      role_required role u = some ⟨"Access denied.", "danger", "login"⟩) ∧
    (∀ x : User, x.role = "supplier" ∨
      role_required "supplier" (some x) = some ⟨"Access denied.", "danger", "login"⟩) := by
  refine ⟨?_, ?_, ?_⟩
  · cases u with
    | none => simp [role_required]
    | some x => by_cases h : x.role = role <;> simp [role_required, h]
  · cases u with
    | none => simp [role_required]
    | some x => by_cases h : x.role = role <;> simp [role_required, h]
  · intro x
    by_cases h : x.role = "supplier" <;> simp [role_required, h]

/-- A pass-through lemma for the decorators: an authenticated identity
with exactly the required role reaches the wrapped handler. -/
theorem guardRole_pass (st : WebState) (u : User) (role : String) (k : User → HResult)
    (hcu : current_user st = some u) (hrole : u.role = role) :
    guardRole st role k = k u := by
  unfold guardRole
  rw [hcu]
  simp [role_required, hrole]

/-- A supplier account, the state where it is logged in with an empty
catalog, and concrete product forms used in closed instances below. -/
def sampleSupplier : User := ⟨1, "s1", generate_password_hash "pw", "supplier"⟩

def sampleSupplier2 : User := ⟨2, "s2", generate_password_hash "pw2", "supplier"⟩

def sampleState : WebState := ⟨⟨[sampleSupplier], []⟩, some 1⟩

def negPriceForm : ProductForm :=
  ⟨some "Widget", some "desc", some "-1", some "Tools", some "5", none⟩

def badPriceForm : ProductForm :=
  ⟨some "Widget", some "desc", some "abc", some "Tools", some "5", none⟩

def sampleProduct : Product := ⟨1, "Widget", "desc", 5, "Tools", 2, none, 1⟩

def sampleStateP : WebState := ⟨⟨[sampleSupplier], [sampleProduct]⟩, some 1⟩

def twoSupplierState : WebState :=
  ⟨⟨[sampleSupplier, sampleSupplier2], [sampleProduct]⟩, some 2⟩

/-- C2 counterexample: the claim requires success only for a POSITIVE
price, but the code checks parseability alone. A logged-in supplier
posting price "-1" succeeds, and the stored product has price -1, which
is not positive. -/
theorem C2_counterexample_negative_price :
    (add_product sampleState .post negPriceForm 1).flashes
        = [("Product added successfully!", "success")] ∧
    (add_product sampleState .post negPriceForm 1).st.db.products
        = [⟨1, "Widget", "desc", -1, "Tools", 5, none, 1⟩] ∧
    pyFloat? "-1" = some (-1) ∧ ¬((0 : Rat) < -1) := by
  decide

/-- C2 (amended): for a logged-in supplier posting a form whose five
required fields are all non-empty, add_product succeeds exactly when the
price parses as a float and the minimum order quantity parses as an
integer (no sign or zero check); when either parse fails it flashes
"Invalid price or quantity value." and leaves the state unchanged. -/
theorem C2_add_product_parse_gate (st : WebState) (u : User) (form : ProductForm) (nid : Nat)
    (hcu : current_user st = some u) (hrole : u.role = "supplier")
    (hfields : truthy form.name ∧ truthy form.description ∧ truthy form.price
        ∧ truthy form.category ∧ truthy form.min_order_qty) :
    (∀ pr q, pyFloat? (form.price.getD "") = some pr →
        pyInt? (form.min_order_qty.getD "") = some q →
        add_product st .post form nid =
          ⟨⟨⟨st.db.users, st.db.products ++
              [⟨nid, form.name.getD "", form.description.getD "", pr, form.category.getD "", q,
                form.image_filename, u.id⟩]⟩, st.session⟩,
           .redirect "supplier_dashboard", [("Product added successfully!", "success")]⟩) ∧
    ((pyFloat? (form.price.getD "") = none ∨ pyInt? (form.min_order_qty.getD "") = none) →
        add_product st .post form nid =
          ⟨st, .redirect "add_product", [("Invalid price or quantity value.", "danger")]⟩) := by
  constructor
  · intro pr q hpr hq
    unfold add_product
    rw [guardRole_pass st u "supplier" _ hcu hrole]
    unfold add_product_body
    rw [if_neg (not_not_intro hfields), hpr, hq]
  · intro hor
    unfold add_product
    rw [guardRole_pass st u "supplier" _ hcu hrole]
    unfold add_product_body
    rw [if_neg (not_not_intro hfields)]
    rcases hor with hpr | hq
    · rw [hpr]
    · cases hpf : pyFloat? (form.price.getD "") with
      | none => rfl
      | some pr => rw [hq]

theorem C2_add_product_parse_gate_witness :
    add_product sampleState .post badPriceForm 1 =
      ⟨sampleState, .redirect "add_product",
       [("Invalid price or quantity value.", "danger")]⟩ :=
  (C2_add_product_parse_gate sampleState sampleSupplier badPriceForm 1 rfl rfl
    (by decide)).2 (Or.inl (by decide))

/-- C3: in edit_product the float/int parses are outside any try/except,
so a logged-in supplier editing their OWN product with the malformed
price "abc" gets an uncaught ValueError, not a recovered notice plus
redirect. -/
theorem C3_edit_product_uncaught_error :
    edit_product sampleStateP 1 .post badPriceForm =
      ⟨sampleStateP, .raised "ValueError", []⟩ ∧
    pyFloat? "abc" = none := by
  decide

/-- C4: an authenticated supplier acting on a product found in the store
but owned by a different supplier is denied on both edit and delete with
the "Access denied." flash and a redirect to the supplier dashboard, and
the whole state (so the product, every field of it, and its existence)
is unchanged. -/
theorem C4_ownership_denied (st : WebState) (s2 : User) (pid : Nat) (p : Product)
    (form : ProductForm) (m : Method)
    (hcu : current_user st = some s2) (hrole : s2.role = "supplier")
    (hfind : st.db.products.find? (fun x => x.id == pid) = some p)
    (hown : p.supplier_id ≠ s2.id) :
    edit_product st pid m form =
      ⟨st, .redirect "supplier_dashboard", [("Access denied.", "danger")]⟩ ∧
    delete_product st pid =
      ⟨st, .redirect "supplier_dashboard", [("Access denied.", "danger")]⟩ := by
  constructor
  · unfold edit_product
    rw [guardRole_pass st s2 "supplier" _ hcu hrole]
    unfold edit_product_body
    rw [hfind]
    simp [hown]
  · unfold delete_product
    rw [guardRole_pass st s2 "supplier" _ hcu hrole]
    unfold delete_product_body
    rw [hfind]
    simp [hown]

theorem C4_ownership_denied_witness :
    edit_product twoSupplierState 1 .get negPriceForm =
      ⟨twoSupplierState, .redirect "supplier_dashboard", [("Access denied.", "danger")]⟩ ∧
    delete_product twoSupplierState 1 =
      ⟨twoSupplierState, .redirect "supplier_dashboard", [("Access denied.", "danger")]⟩ :=
  C4_ownership_denied twoSupplierState sampleSupplier2 1 sampleProduct negPriceForm .get
    rfl rfl rfl (by decide)

/-- C8: with sort "price_low" the search listing is non-decreasing in
price, with "price_high" non-increasing, and any other sort value
returns the filtered rows in storage order, unsorted. -/
theorem C8_sort_order (db : DB) (keyword category : String) :
    List.Sorted priceLe (search db keyword category "price_low") ∧
    List.Sorted priceGe (search db keyword category "price_high") ∧
    (∀ s : String, s = "price_low" ∨ s = "price_high" ∨
      search db keyword category s = filterProducts db keyword category) := by
  refine ⟨?_, ?_, ?_⟩
  · exact List.sorted_insertionSort priceLe (filterProducts db keyword category)
  · exact List.sorted_insertionSort priceGe (filterProducts db keyword category)
  · intro s
    by_cases h1 : s = "price_low"
    · exact Or.inl h1
    by_cases h2 : s = "price_high"
    · exact Or.inr (Or.inl h2)
    refine Or.inr (Or.inr ?_)
    unfold search
    rw [if_neg h1, if_neg h2]

/-- An anonymous-session state with one stored buyer account. -/
def aliceUser : User := ⟨3, "alice", generate_password_hash "secret", "buyer"⟩

def anonState : WebState := ⟨⟨[aliceUser], []⟩, none⟩

def wrongPwForm : LoginForm := ⟨some "alice", some "nope"⟩

def noUserForm : LoginForm := ⟨some "bob", some "whatever"⟩

/-- Reduction of the /register handler on POST for an anonymous session
to its POST branch. -/
theorem register_post_anon (st : WebState) (form : RegForm) (nid : Nat)
    (hanon : current_user st = none) :
    register st .post form nid =
      registerPost st (form.username.getD "") (form.password.getD "") (form.role.getD "") nid := by
  unfold register
  rw [hanon]
  rfl

/-- C6: for an anonymous POST to /register the rejections fire in the
source order: any empty/absent field gives the all-fields notice
(regardless of the other checks); otherwise a role outside
{supplier, buyer} gives the invalid-role notice; otherwise a username
already stored gives the username-exists notice; and every user row
after any registration request either was already stored or carries
role "supplier" or "buyer" — never a fresh "admin". -/
theorem C6_register_priority (st : WebState) (form : RegForm) (nid : Nat)
    (hanon : current_user st = none) :
    ((form.username.getD "").isEmpty ∨ (form.password.getD "").isEmpty
        ∨ (form.role.getD "").isEmpty →
      register st .post form nid =
        ⟨st, .redirect "register", [("All fields are required.", "danger")]⟩) ∧
    (¬((form.username.getD "").isEmpty ∨ (form.password.getD "").isEmpty
        ∨ (form.role.getD "").isEmpty) →
      ¬(form.role.getD "" = "supplier" ∨ form.role.getD "" = "buyer") →
      register st .post form nid =
        ⟨st, .redirect "register", [("Invalid role selected.", "danger")]⟩) ∧
    (¬((form.username.getD "").isEmpty ∨ (form.password.getD "").isEmpty
        ∨ (form.role.getD "").isEmpty) →
      (form.role.getD "" = "supplier" ∨ form.role.getD "" = "buyer") →
      (st.db.users.find? (fun u => u.username == form.username.getD "")).isSome →
      register st .post form nid =
        ⟨st, .redirect "register", [("Username already exists.", "danger")]⟩) ∧
    (∀ u ∈ (register st .post form nid).st.db.users,
      u ∈ st.db.users ∨ u.role = "supplier" ∨ u.role = "buyer") := by
  rw [register_post_anon st form nid hanon]
  refine ⟨?_, ?_, ?_, ?_⟩
  · intro h
    unfold registerPost
    rw [if_pos h]
  · intro h1 h2
    unfold registerPost
    rw [if_neg h1, if_pos h2]
  · intro h1 h2 h3
    unfold registerPost
    rw [if_neg h1, if_neg (not_not_intro h2), if_pos h3]
  · intro u hu
    unfold registerPost at hu
    by_cases h1 : ((form.username.getD "").isEmpty ∨ (form.password.getD "").isEmpty
        ∨ (form.role.getD "").isEmpty)
    · rw [if_pos h1] at hu
      exact Or.inl hu
    rw [if_neg h1] at hu
    by_cases h2 : ¬(form.role.getD "" = "supplier" ∨ form.role.getD "" = "buyer")
    · rw [if_pos h2] at hu
      exact Or.inl hu
    rw [if_neg h2] at hu
    by_cases h3 : ((st.db.users.find? (fun x => x.username == form.username.getD "")).isSome
        = true)
    · rw [if_pos h3] at hu
      exact Or.inl hu
    rw [if_neg h3] at hu
    simp only [List.mem_append, List.mem_singleton] at hu
    rcases hu with hu | hu
    · exact Or.inl hu
    · subst hu
      rcases not_not.mp h2 with h | h
      · exact Or.inr (Or.inl h)
      · exact Or.inr (Or.inr h)

theorem C6_register_priority_witness :
    register anonState .post ⟨some "eve", some "pw", some "admin"⟩ 9 =
      ⟨anonState, .redirect "register", [("Invalid role selected.", "danger")]⟩ :=
  (C6_register_priority anonState ⟨some "eve", some "pw", some "admin"⟩ 9 rfl).2.1
    (by decide) (by decide)

/-- C7: for an anonymous POST to /login, a stored username with a
password failing verification and an absent username both yield the same
result: the "Invalid username or password." flash, the login page again,
and an unchanged state — so the two failure runs are indistinguishable. -/
theorem C7_login_uniform_failure (st : WebState) (f1 f2 : LoginForm) (u : User)
    (hanon : current_user st = none)
    (hfind1 : st.db.users.find? (fun x => some x.username == f1.username) = some u)
    (hwrong : check_password_hash u.password_hash (f1.password.getD "") = false)
    (hfind2 : st.db.users.find? (fun x => some x.username == f2.username) = none) :
    login st .post f1 =
      ⟨st, .render "login.html", [("Invalid username or password.", "danger")]⟩ ∧
    login st .post f2 =
      ⟨st, .render "login.html", [("Invalid username or password.", "danger")]⟩ ∧
    (login st .post f1).flashes = (login st .post f2).flashes := by
  have h1 : login st .post f1 =
      ⟨st, .render "login.html", [("Invalid username or password.", "danger")]⟩ := by
    unfold login
    rw [hanon, hfind1]
    simp [hwrong]
  have h2 : login st .post f2 =
      ⟨st, .render "login.html", [("Invalid username or password.", "danger")]⟩ := by
    unfold login
    rw [hanon, hfind2]
    rfl
  exact ⟨h1, h2, by rw [h1, h2]⟩

theorem C7_login_uniform_failure_witness :
    (login anonState .post wrongPwForm).flashes = (login anonState .post noUserForm).flashes :=
  (C7_login_uniform_failure anonState wrongPwForm noUserForm aliceUser rfl rfl
    (by decide) rfl).2.2

/-- Length bookkeeping for the cascade: removed rows are exactly the
owned ones. -/
theorem length_filter_not_owner (l : List Product) (uid : Nat) :
    (l.filter (fun p => p.supplier_id != uid)).length
      + l.countP (fun p => p.supplier_id == uid) = l.length := by
  induction l with
  | nil => rfl
  | cons a t ih =>
      rw [List.filter_cons, List.countP_cons]
      by_cases h : a.supplier_id = uid
      · have hb1 : ¬((a.supplier_id != uid) = true) := by simp [h]
        have hb2 : (a.supplier_id == uid) = true := by simp [h]
        rw [if_neg hb1, if_pos hb2]
        simp only [List.length_cons]
        omega
      · have hb1 : (a.supplier_id != uid) = true := by simp [h]
        have hb2 : ¬((a.supplier_id == uid) = true) := by simp [h]
        rw [if_pos hb1, if_neg hb2]
        simp only [List.length_cons]
        omega

/-- C9: deleting an account removes every product whose owning supplier
id is the id of that account (their count drops to zero and the removed
count equals the owned count), keeps all other products, and a supplier
or admin product deletion never changes the user table. -/
theorem C9_cascade_delete (db : DB) (uid : Nat) (st : WebState) (pid : Nat) :
    ((delete_account db uid).products.countP (fun p => p.supplier_id == uid) = 0) ∧
    ((delete_account db uid).products.length
        + db.products.countP (fun p => p.supplier_id == uid) = db.products.length) ∧
    (∀ p ∈ db.products, p.supplier_id ≠ uid → p ∈ (delete_account db uid).products) ∧
    ((delete_product st pid).st.db.users = st.db.users) ∧
    ((admin_delete_product st pid).st.db.users = st.db.users) := by
  refine ⟨?_, ?_, ?_, ?_, ?_⟩
  · rw [List.countP_eq_zero]
    intro a ha
    simp only [delete_account, List.mem_filter, bne_iff_ne, ne_eq] at ha
    simp [ha.2]
  · exact length_filter_not_owner db.products uid
  · intro p hp hne
    simp [delete_account, List.mem_filter, hp, hne]
  · unfold delete_product guardRole
    cases hcu : current_user st with
    | none => rfl
    | some u =>
        by_cases hr : u.role = "supplier"
        · simp only [role_required, hr, ne_eq, not_true_eq_false, if_false]
          unfold delete_product_body
          cases hf : st.db.products.find? (fun p => p.id == pid) with
          | none => rfl
          | some product => by_cases hown : product.supplier_id ≠ u.id <;> simp [hown]
        · simp [role_required, hr]
  · unfold admin_delete_product guardRole
    cases hcu : current_user st with
    | none => rfl
    | some u =>
        by_cases hr : u.role = "admin"
        · simp only [role_required, hr, ne_eq, not_true_eq_false, if_false]
          cases hf : st.db.products.find? (fun p => p.id == pid) with
          | none => rfl
          | some product => rfl
        · simp [role_required, hr]

theorem C9_cascade_delete_witness :
    (delete_account ⟨[sampleSupplier], [sampleProduct]⟩ 1).products.countP
        (fun p => p.supplier_id == 1) = 0 ∧
    (delete_product sampleStateP 1).st.db.users = sampleStateP.db.users :=
  ⟨(C9_cascade_delete ⟨[sampleSupplier], [sampleProduct]⟩ 1 sampleStateP 1).1,
   (C9_cascade_delete ⟨[sampleSupplier], [sampleProduct]⟩ 1 sampleStateP 1).2.2.2.1⟩

/-- C10: a request to /register or /login from a state whose session
resolves to an account — any method, any form data — returns an
immediate redirect to the index with no flash and the state (both
tables and the session) unchanged. -/
theorem C10_authenticated_noop (st : WebState) (m : Method) (rf : RegForm) (lf : LoginForm)
    (nid : Nat) (h : (current_user st).isSome = true) :
    register st m rf nid = ⟨st, .redirect "index", []⟩ ∧
    login st m lf = ⟨st, .redirect "index", []⟩ := by
  constructor
  · unfold register
    rw [if_pos h]
  · unfold login
    rw [if_pos h]

theorem C10_authenticated_noop_witness :
    register sampleState .post ⟨some "x", some "y", some "buyer"⟩ 9 =
      ⟨sampleState, .redirect "index", []⟩ ∧
    login sampleState .post ⟨some "alice", some "secret"⟩ =
      ⟨sampleState, .redirect "index", []⟩ :=
  C10_authenticated_noop sampleState .post ⟨some "x", some "y", some "buyer"⟩
    ⟨some "alice", some "secret"⟩ 9 rfl

end MSME
